import Mathlib

/-!
Shallow embedding of `anarchic-image-hosting-cli` (src/src/main.rs).

The program is a single-shot CLI that loads an optional JSON5 config file,
resolves an upload URL from CLI flag / config / default, reads a target
file, POSTs it as a one-part multipart form, and reports the HTTP result.

External collaborators (filesystem, JSON5 parser, HTTP transport) are
modelled as fields of a `World`; the pipeline itself is embedded faithfully,
line by line, from `main.rs`.
-/

namespace ImageHosting

/-- Rust `OsStr`: the final path segment may or may not be valid UTF-8.
`Path::file_name` returns an `OsStr`; `OsStr::to_str` yields `Some` exactly
when the bytes are valid UTF-8. We model only that distinction. -/
inductive OsStr where
  | valid (s : String)
  | invalid
  deriving DecidableEq, Repr

/-- `OsStr::to_str` (std): `Some` of the text for valid UTF-8, else `None`. -/
def OsStr.to_str : OsStr → Option String
  | .valid s => some s
  | .invalid => none

/-- Rust `PathBuf`, reduced to what `main.rs` observes of it:
`Path::file_name()` — the final path segment, `none` when the path has no
extractable final component (e.g. ends in `..` or is a root). -/
structure RustPath where
  file_name : Option OsStr
  deriving DecidableEq, Repr

/-- `struct Cli` (main.rs lines 10–19): one positional `file_path`,
one optional `--url` flag. -/
structure Cli where
  file_path : RustPath
  url : Option String
  deriving DecidableEq, Repr

/-- `struct Config` (main.rs lines 21–25): both fields optional. -/
structure Config where
  log_level : Option String
  endpoint : Option String
  deriving DecidableEq, Repr

/-- Result of `load_config` as the process observes it.  `panicked` models
the `.expect(...)` panic on line 28 (read failure aborts the process);
`err` models the `io::Error` returned on a JSON5 parse failure (line 30);
`ok` is a parsed `Config`. -/
inductive LoadConfigResult where
  | panicked (msg : String)
  | err (msg : String)
  | ok (cfg : Config)
  deriving DecidableEq, Repr

/-- `fn load_config` (main.rs lines 27–31).
`fileContent` is what `std::fs::read_to_string` would yield (`none` =
missing/unreadable file, in which case `.expect` panics with
"Failed to read config file"); `parseJson5` is the external `json5::from_str`
collaborator, whose failure is mapped to an `io::Error` with message
"Unable to parse config file". -/
def load_config (fileContent : Option String)
    (parseJson5 : String → Option Config) : LoadConfigResult :=
  match fileContent with
  | none => .panicked "Failed to read config file"
  | some s =>
    match parseJson5 s with
    | some cfg => .ok cfg
    | none => .err "Unable to parse config file"

/-- URL resolution, main.rs lines 62–66:
`args.url.clone().unwrap_or_else(|| endpoint.clone().unwrap_or_else(||
"http://localhost:8080".to_string())) + "/upload"`. -/
def resolve (cliUrl configEndpoint : Option String) : String :=
  (cliUrl.getD (configEndpoint.getD "http://localhost:8080")) ++ "/upload"

/-- Display-name derivation, main.rs lines 77–80:
`args.file_path.file_name().and_then(|n| n.to_str()).unwrap_or("unknown_file")`. -/
def deriveFileName (file_name : Option OsStr) : String :=
  (file_name.bind OsStr.to_str).getD "unknown_file"

/-- One part of a multipart form: `Part::bytes(buffer).file_name(name)`
registered under a field name by `Form::new().part(name, ...)`. -/
structure Part where
  fieldName : String
  fileName : String
  bytes : List Nat
  deriving DecidableEq, Repr

/-- The single HTTP POST issued by the program: target URL and multipart
form (main.rs lines 84–97). -/
structure Request where
  url : String
  parts : List Part
  deriving DecidableEq, Repr

/-- The environment one run executes against: content of the config file
(`none` = missing/unreadable), the JSON5 parser, bytes of the target file
(`none` = open/read failure), and the transport outcome of the POST
(`none` = connection/transport failure, otherwise status code and body). -/
structure World where
  configFile : Option String
  parseJson5 : String → Option Config
  targetFile : Option (List Nat)
  response : Option (Nat × String)

/-- How the process terminates: a panic (unwinds out of `main`), a fatal
error propagated by `?` from file I/O or from the network call, or the
`Ok(())` return on line 113. -/
inductive Outcome where
  | panicked (msg : String)
  | ioError
  | netError
  | done
  deriving DecidableEq, Repr

/-- Observable events of one run, in program order. -/
inductive Event where
  | configLoadAttempt
  | urlResolved (u : String)
  | fileReadOk (n : Nat)
  | requestSent (r : Request)
  deriving DecidableEq, Repr

/-- Everything observable about one run. `stdoutLines`/`stderrLines` collect
the `println!`/`eprintln!` lines in order; `requests` the HTTP requests
handed to the transport; `resolvedLogLevel` the level passed to
`init_logger` (`none` when the run panics before reaching it). -/
structure RunResult where
  outcome : Outcome
  resolvedLogLevel : Option String
  stdoutLines : List String
  stderrLines : List String
  requests : List Request
  events : List Event
  deriving Repr

/-- main.rs lines 55–113: everything after the config match. `logLevel` and
`endpoint` are the pair bound on lines 42–52, `warn` the stderr lines
already emitted by the config match. -/
def runRest (w : World) (cli : Cli) (logLevel : String)
    (endpoint : Option String) (warn : List String) : RunResult :=
  -- line 62–66: determine the URL to use
  let url := resolve cli.url endpoint
  -- line 71–73: open and read the file; `?` aborts on failure
  match w.targetFile with
  | none =>
    { outcome := .ioError
      resolvedLogLevel := some logLevel
      stdoutLines := []
      stderrLines := warn
      requests := []
      events := [.configLoadAttempt, .urlResolved url] }
  | some buffer =>
    -- lines 77–80: derive the display name
    let file_name := deriveFileName cli.file_path.file_name
    -- lines 84–85: one part, field name "file", the buffer, the display name
    let req : Request := ⟨url, [⟨"file", file_name, buffer⟩]⟩
    -- lines 93–97: send; `?` aborts on transport failure
    match w.response with
    | none =>
      { outcome := .netError
        resolvedLogLevel := some logLevel
        stdoutLines := []
        stderrLines := warn
        requests := [req]
        events := [.configLoadAttempt, .urlResolved url,
                   .fileReadOk buffer.length, .requestSent req] }
    | some (status, body) =>
      -- line 104: `status.is_success()` is 200 ≤ status < 300
      if 200 ≤ status ∧ status < 300 then
        { outcome := .done
          resolvedLogLevel := some logLevel
          stdoutLines := [body]
          stderrLines := warn
          requests := [req]
          events := [.configLoadAttempt, .urlResolved url,
                     .fileReadOk buffer.length, .requestSent req] }
      else
        -- StatusCode's Display renders the numeric code (a known code is
        -- followed by its canonical reason); the digits are what we model.
        { outcome := .done
          resolvedLogLevel := some logLevel
          stdoutLines := []
          stderrLines := warn ++
            ["Failed to upload the file. Status: " ++ toString status,
             "Response: " ++ body]
          requests := [req]
          events := [.configLoadAttempt, .urlResolved url,
                     .fileReadOk buffer.length, .requestSent req] }

/-- `main` (main.rs lines 39–114). The config match on lines 42–52: `Ok`
uses `log_level` or "info" and passes the endpoint through; `Err` warns on
stderr and falls back to ("error", None).  A panic inside `load_config`
unwinds past the match and aborts the run. -/
def runMain (w : World) (cli : Cli) : RunResult :=
  match load_config w.configFile w.parseJson5 with
  | .panicked msg =>
    { outcome := .panicked msg
      resolvedLogLevel := none
      stdoutLines := []
      stderrLines := []
      requests := []
      events := [.configLoadAttempt] }
  | .err msg =>
    runRest w cli "error" none
      ["Warning: Could not load config file: " ++ msg]
  | .ok cfg =>
    runRest w cli (cfg.log_level.getD "info") cfg.endpoint []

/-- The endpoint value the run's URL resolution actually consumes, as a
function of the world (lines 42–52 restricted to the `endpoint` component). -/
def effectiveEndpoint (w : World) : Option String :=
  match w.configFile with
  | none => none
  | some c =>
    match w.parseJson5 c with
    | some cfg => cfg.endpoint
    | none => none

/-! Concrete fixtures used by evaluation theorems and witnesses. -/

/-- A JSON5 parser double that rejects every input. -/
def parseNone : String → Option Config := fun _ => none

/-- A JSON5 parser double that accepts every input as an empty config. -/
def parseEmpty : String → Option Config := fun _ => some ⟨none, none⟩

/-- A CLI invocation: `anarchic-image-hosting-cli photo.png` (no `--url`). -/
def cliPhoto : Cli := ⟨⟨some (.valid "photo.png")⟩, none⟩

/-- World where the config file is missing/unreadable; everything else is
healthy. -/
def wMissingConfig : World := ⟨none, parseNone, some [1, 2], some (200, "ok")⟩

/-- World where the config file parses empty and the target file does not
exist. -/
def wNoTarget : World := ⟨some "cfg", parseEmpty, none, none⟩

/-- World for a healthy 200 "ok" run. -/
def wOk : World := ⟨some "cfg", parseEmpty, some [1, 2, 3], some (200, "ok")⟩

/-- World for a 500 "server error" run. -/
def wRejected : World :=
  ⟨some "cfg", parseEmpty, some [1, 2, 3], some (500, "server error")⟩

/-- World where the target file exists but is empty (zero bytes). -/
def wEmptyFile : World := ⟨some "cfg", parseEmpty, some [], some (200, "ok")⟩

/-!  Theorems, one per claim. -/

/-- Claim C1 (code_bug evaluation): with the config file missing or
unreadable, `load_config`'s `.expect` panics and the run aborts with
"Failed to read config file", no warning is written, and no defaulted log
level is ever resolved — the code contradicts the claim (and its own `Err`
branch, which exists to recover from exactly this) that loading never
aborts.  The present-but-unparsable case does recover as claimed. -/
theorem missing_config_panics :
    (runMain wMissingConfig cliPhoto).outcome
      = Outcome.panicked "Failed to read config file" ∧
    (runMain wMissingConfig cliPhoto).stderrLines = [] ∧
    (runMain wMissingConfig cliPhoto).resolvedLogLevel = none ∧
    load_config none parseNone = .panicked "Failed to read config file" := by
  exact ⟨rfl, rfl, rfl, rfl⟩

/-- Claim C2: URL resolution is pure precedence — CLI flag, else config
endpoint, else the literal default — with "/upload" appended verbatim and
no rewriting of the base; the three singled-out instances hold. -/
theorem resolve_precedence :
    (∀ b a, resolve (some b) a = b ++ "/upload") ∧
    (∀ a, resolve none (some a) = a ++ "/upload") ∧
    resolve none none = "http://localhost:8080/upload" ∧
    resolve (some "http://b") (some "http://a") = "http://b/upload" ∧
    resolve none (some "http://a") = "http://a/upload" := by
  exact ⟨fun b a => rfl, fun a => rfl, rfl, rfl, rfl⟩

/-- Claim C3: when the target file cannot be opened/read, no HTTP request
is ever issued and the run does not complete normally; whenever the run
survives config loading, it aborts precisely with the fatal I/O error. -/
theorem missing_target_aborts_no_request (w : World) (cli : Cli)
    (h : w.targetFile = none) :
    (runMain w cli).requests = [] ∧
    (runMain w cli).outcome ≠ Outcome.done ∧
    (w.configFile.isSome → (runMain w cli).outcome = Outcome.ioError) := by
  obtain ⟨cf, pj, tf, resp⟩ := w
  replace h : tf = none := h
  subst h
  cases cf with
  | none => simp [runMain, load_config]
  | some c =>
    cases hp : pj c with
    | none => simp [runMain, load_config, runRest, hp]
    | some cfg => simp [runMain, load_config, runRest, hp]

/-- Witness for C3 at a concrete world with a missing target file. -/
theorem missing_target_aborts_no_request_witness :
    (runMain wNoTarget cliPhoto).requests = [] ∧
    (runMain wNoTarget cliPhoto).outcome = Outcome.ioError :=
  ⟨(missing_target_aborts_no_request wNoTarget cliPhoto rfl).1,
   (missing_target_aborts_no_request wNoTarget cliPhoto rfl).2.2 rfl⟩

/-- Claim C4 (code_bug evaluation): the log-level mapping is as claimed on
the two parse outcomes (explicit `log_level` wins, otherwise "info") and on
a present-but-unparsable file ("error"); but with the file absent or
unreadable the run panics before resolving any level, so the resolved
level is not "error" there, contradicting the claim. -/
theorem log_level_resolution :
    (runMain ⟨some "cfg", fun _ => some ⟨some "debug", none⟩,
        some [1], some (200, "ok")⟩ cliPhoto).resolvedLogLevel
      = some "debug" ∧
    (runMain ⟨some "cfg", parseEmpty,
        some [1], some (200, "ok")⟩ cliPhoto).resolvedLogLevel
      = some "info" ∧
    (runMain ⟨some "cfg", parseNone,
        some [1], some (200, "ok")⟩ cliPhoto).resolvedLogLevel
      = some "error" ∧
    (runMain wMissingConfig cliPhoto).resolvedLogLevel = none := by
  exact ⟨rfl, rfl, rfl, rfl⟩

/-- Claim C5: on any 2xx response with body `b`, standard output is exactly
the one line `b` and the run completes with the `Ok(())` outcome. -/
theorem success_prints_body (w : World) (cli : Cli) (c : String)
    (bs : List Nat) (s : Nat) (b : String)
    (hcf : w.configFile = some c) (htf : w.targetFile = some bs)
    (hre : w.response = some (s, b)) (h1 : 200 ≤ s) (h2 : s < 300) :
    (runMain w cli).stdoutLines = [b] ∧
    (runMain w cli).outcome = Outcome.done := by
  obtain ⟨cf, pj, tf, resp⟩ := w
  replace hcf : cf = some c := hcf
  replace htf : tf = some bs := htf
  replace hre : resp = some (s, b) := hre
  subst hcf htf hre
  cases hp : pj c with
  | none => simp [runMain, load_config, runRest, hp, h1, h2]
  | some cfg => simp [runMain, load_config, runRest, hp, h1, h2]

/-- Witness for C5: a 200 "ok" run prints exactly "ok" and completes. -/
theorem success_prints_body_witness :
    (runMain wOk cliPhoto).stdoutLines = ["ok"] ∧
    (runMain wOk cliPhoto).outcome = Outcome.done :=
  success_prints_body wOk cliPhoto "cfg" [1, 2, 3] 200 "ok" rfl rfl rfl
    (by decide) (by decide)

/-- Claim C6: on any non-2xx response, the status code and the body are both
written to the error stream, and the run still completes with the same
`Ok(())` outcome as a 2xx run — the rejection is not fatal. -/
theorem rejection_reported_not_fatal (w : World) (cli : Cli) (c : String)
    (bs : List Nat) (s : Nat) (b : String)
    (hcf : w.configFile = some c) (htf : w.targetFile = some bs)
    (hre : w.response = some (s, b)) (hs : ¬(200 ≤ s ∧ s < 300)) :
    ("Failed to upload the file. Status: " ++ toString s)
      ∈ (runMain w cli).stderrLines ∧
    ("Response: " ++ b) ∈ (runMain w cli).stderrLines ∧
    (runMain w cli).outcome = Outcome.done := by
  obtain ⟨cf, pj, tf, resp⟩ := w
  replace hcf : cf = some c := hcf
  replace htf : tf = some bs := htf
  replace hre : resp = some (s, b) := hre
  subst hcf htf hre
  cases hp : pj c with
  | none => simp [runMain, load_config, runRest, hp, hs]
  | some cfg => simp [runMain, load_config, runRest, hp, hs]

/-- Witness for C6: a 500 "server error" run reports both on stderr and
still completes. -/
theorem rejection_reported_not_fatal_witness :
    ("Failed to upload the file. Status: " ++ toString 500)
      ∈ (runMain wRejected cliPhoto).stderrLines ∧
    ("Response: " ++ "server error") ∈ (runMain wRejected cliPhoto).stderrLines ∧
    (runMain wRejected cliPhoto).outcome = Outcome.done :=
  rejection_reported_not_fatal wRejected cliPhoto "cfg" [1, 2, 3] 500
    "server error" rfl rfl rfl (by decide)

/-- Claim C7: every run that reads the target file issues exactly one
request, whose multipart form has exactly one part, field name "file",
carrying the full byte buffer and the derived display name. -/
theorem single_multipart_post (w : World) (cli : Cli) (c : String)
    (bs : List Nat)
    (hcf : w.configFile = some c) (htf : w.targetFile = some bs) :
    (runMain w cli).requests =
      [⟨resolve cli.url (effectiveEndpoint w),
        [⟨"file", deriveFileName cli.file_path.file_name, bs⟩]⟩] := by
  obtain ⟨cf, pj, tf, resp⟩ := w
  replace hcf : cf = some c := hcf
  replace htf : tf = some bs := htf
  subst hcf htf
  cases hp : pj c with
  | none =>
    cases resp with
    | none => simp [runMain, load_config, runRest, hp, effectiveEndpoint]
    | some sb =>
      obtain ⟨s, b⟩ := sb
      by_cases hs : 200 ≤ s ∧ s < 300 <;>
        simp [runMain, load_config, runRest, hp, effectiveEndpoint, hs]
  | some cfg =>
    cases resp with
    | none => simp [runMain, load_config, runRest, hp, effectiveEndpoint]
    | some sb =>
      obtain ⟨s, b⟩ := sb
      by_cases hs : 200 ≤ s ∧ s < 300 <;>
        simp [runMain, load_config, runRest, hp, effectiveEndpoint, hs]

/-- Witness for C7 on the healthy run: one POST, one part named "file" with
the file's bytes and the name "photo.png". -/
theorem single_multipart_post_witness :
    (runMain wOk cliPhoto).requests =
      [⟨resolve cliPhoto.url (effectiveEndpoint wOk),
        [⟨"file", deriveFileName cliPhoto.file_path.file_name, [1, 2, 3]⟩]⟩] :=
  single_multipart_post wOk cliPhoto "cfg" [1, 2, 3] rfl rfl

/-- Claim C8: complete trace characterization.  Every run's event trace is
one of three prefixes of the same straight-line order: the URL is resolved
at most once, any request is sent strictly after the (unique) resolution,
and its target is that very string. -/
theorem url_resolved_once_before_send (w : World) (cli : Cli) :
    (runMain w cli).events = [Event.configLoadAttempt] ∨
    (runMain w cli).events =
      [Event.configLoadAttempt,
       Event.urlResolved (resolve cli.url (effectiveEndpoint w))] ∨
    ∃ bs, w.targetFile = some bs ∧
      (runMain w cli).events =
        [Event.configLoadAttempt,
         Event.urlResolved (resolve cli.url (effectiveEndpoint w)),
         Event.fileReadOk bs.length,
         Event.requestSent ⟨resolve cli.url (effectiveEndpoint w),
           [⟨"file", deriveFileName cli.file_path.file_name, bs⟩]⟩] := by
  obtain ⟨cf, pj, tf, resp⟩ := w
  cases cf with
  | none => exact Or.inl rfl
  | some c =>
    cases hp : pj c with
    | none =>
      cases tf with
      | none =>
        refine Or.inr (Or.inl ?_)
        simp [runMain, load_config, runRest, hp, effectiveEndpoint]
      | some bs =>
        refine Or.inr (Or.inr ⟨bs, rfl, ?_⟩)
        cases resp with
        | none => simp [runMain, load_config, runRest, hp, effectiveEndpoint]
        | some sb =>
          obtain ⟨s, b⟩ := sb
          by_cases hs : 200 ≤ s ∧ s < 300 <;>
            simp [runMain, load_config, runRest, hp, effectiveEndpoint, hs]
    | some cfg =>
      cases tf with
      | none =>
        refine Or.inr (Or.inl ?_)
        simp [runMain, load_config, runRest, hp, effectiveEndpoint]
      | some bs =>
        refine Or.inr (Or.inr ⟨bs, rfl, ?_⟩)
        cases resp with
        | none => simp [runMain, load_config, runRest, hp, effectiveEndpoint]
        | some sb =>
          obtain ⟨s, b⟩ := sb
          by_cases hs : 200 ≤ s ∧ s < 300 <;>
            simp [runMain, load_config, runRest, hp, effectiveEndpoint, hs]

/-- Claim C9: the derived display name is the UTF-8 text of the final path
segment when there is one and it is valid UTF-8, and the literal
"unknown_file" both when there is no final segment and when the segment is
not valid UTF-8. -/
theorem display_name_fallback (fn : Option OsStr) :
    deriveFileName fn =
      (match fn with
       | some (OsStr.valid s) => s
       | some OsStr.invalid => "unknown_file"
       | none => "unknown_file") := by
  cases fn with
  | none => rfl
  | some o => cases o <;> rfl

/-- Claim C10: an existing zero-byte target file is not an error: the run
does not take the fatal I/O exit, and it issues the single request with one
part named "file" carrying zero bytes (the nonempty request list also rules
out the config-panic path, which issues none). -/
theorem empty_file_uploads (w : World) (cli : Cli) (c : String)
    (hcf : w.configFile = some c) (htf : w.targetFile = some []) :
    (runMain w cli).outcome ≠ Outcome.ioError ∧
    (runMain w cli).requests =
      [⟨resolve cli.url (effectiveEndpoint w),
        [⟨"file", deriveFileName cli.file_path.file_name, []⟩]⟩] := by
  obtain ⟨cf, pj, tf, resp⟩ := w
  replace hcf : cf = some c := hcf
  replace htf : tf = some [] := htf
  subst hcf htf
  cases hp : pj c with
  | none =>
    cases resp with
    | none => simp [runMain, load_config, runRest, hp, effectiveEndpoint]
    | some sb =>
      obtain ⟨s, b⟩ := sb
      by_cases hs : 200 ≤ s ∧ s < 300 <;>
        simp [runMain, load_config, runRest, hp, effectiveEndpoint, hs]
  | some cfg =>
    cases resp with
    | none => simp [runMain, load_config, runRest, hp, effectiveEndpoint]
    | some sb =>
      obtain ⟨s, b⟩ := sb
      by_cases hs : 200 ≤ s ∧ s < 300 <;>
        simp [runMain, load_config, runRest, hp, effectiveEndpoint, hs]

/-- Witness for C10 at a world whose target file is empty. -/
theorem empty_file_uploads_witness :
    (runMain wEmptyFile cliPhoto).outcome = Outcome.done ∧
    (runMain wEmptyFile cliPhoto).requests =
      [⟨resolve cliPhoto.url (effectiveEndpoint wEmptyFile),
        [⟨"file", deriveFileName cliPhoto.file_path.file_name, []⟩]⟩] :=
  ⟨rfl, (empty_file_uploads wEmptyFile cliPhoto "cfg" rfl rfl).2⟩

end ImageHosting
